import Mathlib

/-!
Shallow embedding of `backend/app/services/websocket_manager.py` (class
`WebSocketManager`) from the Ai-Council repository.

Modelling conventions:
* Python dicts keyed by request id become functions `String → Option α`;
  `k in d` is `(f k).isSome`, `d.get(k, v)` is `(f k).getD v`.
* A WebSocket transport object is identified by a `Nat` handle.  Calls into
  the transport layer (`accept`, `send_json`, `close`) are recorded in a
  trace of `Action`s; whether such a call raises is injected through explicit
  outcome parameters (`SendOutcome`, `acceptFails`, `closeFails`, `failAt`),
  since the Python transport is external I/O.
* Python exceptions are modelled with `Except Unit`: a function that can let
  an exception escape to its caller returns `Except Unit α`; a `try/except`
  block that swallows the exception is translated by matching on the
  primitive result and continuing identically in both branches.
* `datetime.utcnow()` values are abstract `Nat` timestamps measured in
  seconds, supplied by the caller as `now`; `timedelta(hours=h)` is
  `h * 3600`, `timedelta(minutes=5)` is `300`.
* JSON message dicts are reduced to the fields the manager reads or writes:
  the type tag, the timestamp and the optional `message_id` entry.
-/

namespace AiCouncil

/-- An outbound JSON frame, with the fields the manager inspects.
`messageId = none` models a dict without a `message_id` key. -/
structure Message where
  typ : String
  timestamp : Nat
  messageId : Option Nat := none
  deriving Repr, DecidableEq

/-- The metadata dict stored in `connection_metadata[request_id]`. -/
structure ConnMetadata where
  userId : String
  connectedAt : Nat
  lastHeartbeat : Nat
  reconnectionCount : Nat
  deriving Repr, DecidableEq

/-- A call into the transport layer, recorded in a trace: `send` is a
`send_json` that succeeded, `sendErr` one that raised. -/
inductive Action where
  | accept (ws : Nat)
  | close (ws : Nat)
  | send (ws : Nat) (msg : Message)
  | sendErr (ws : Nat) (msg : Message)
  deriving Repr, DecidableEq

/-- Outcome of one `send_json` call: success, `WebSocketDisconnect`, or any
other exception (the Python code handles the two failure kinds alike). -/
inductive SendOutcome where
  | ok
  | wsDisconnect
  | otherError
  deriving Repr, DecidableEq

/-- The mutable state of a `WebSocketManager` instance: the five per-session
dicts initialised in `__init__`. -/
structure WSManager where
  activeConnections : String → Option Nat
  connectionMetadata : String → Option ConnMetadata
  messageQueue : String → Option (List Message)
  lastAck : String → Option Nat
  messageCounters : String → Option Nat

/-- Dict update `d[k] = v` (or `del d[k]` with `v = none`). -/
def mapSet {α : Type} (f : String → Option α) (k : String) (v : Option α) :
    String → Option α :=
  fun k2 => if k2 = k then v else f k2

/-- The manager right after `__init__`: all five dicts empty. -/
def emptyWS : WSManager :=
  { activeConnections := fun _ => none
    connectionMetadata := fun _ => none
    messageQueue := fun _ => none
    lastAck := fun _ => none
    messageCounters := fun _ => none }

instance : Inhabited WSManager := ⟨emptyWS⟩

/-- `await websocket.accept()`: raises iff the injected flag says so. -/
def acceptPrim (_ws : Nat) (fails : Bool) : Except Unit Unit :=
  if fails then Except.error () else Except.ok ()

/-- `await websocket.close()`: raises iff the injected flag says so. -/
def closePrim (_ws : Nat) (fails : Bool) : Except Unit Unit :=
  if fails then Except.error () else Except.ok ()

/-- `await websocket.send_json(msg)`: raises unless the outcome is `ok`. -/
def sendPrim (_ws : Nat) (_msg : Message) (outcome : SendOutcome) :
    Except Unit Unit :=
  match outcome with
  | SendOutcome.ok => Except.ok ()
  | SendOutcome.wsDisconnect => Except.error ()
  | SendOutcome.otherError => Except.error ()

/-- `WebSocketManager.disconnect` (lines 79-97): if a live transport exists,
try to close it (the `except` clause only logs), then delete it from
`active_connections`.  Metadata and queue are kept. -/
def disconnect (m : WSManager) (rid : String) (closeFails : Bool) :
    Except Unit (WSManager × List Action) :=
  match m.activeConnections rid with
  | some ws =>
      match closePrim ws closeFails with
      | Except.ok _ =>
          Except.ok
            ({ m with activeConnections := mapSet m.activeConnections rid none },
             [Action.close ws])
      | Except.error _ =>
          Except.ok
            ({ m with activeConnections := mapSet m.activeConnections rid none },
             [Action.close ws])
  | none => Except.ok (m, [])

/-- `WebSocketManager._queue_message` (lines 162-174): ensure the list exists,
then append. -/
def queue_message (m : WSManager) (rid : String) (msg : Message) : WSManager :=
  { m with
    messageQueue :=
      mapSet m.messageQueue rid (some ((m.messageQueue rid).getD [] ++ [msg])) }

/-- `WebSocketManager.send_message` (lines 99-136): bump the counter, stamp
`message_id`, then either deliver live, or on a transport error disconnect
and queue, or queue directly when no live transport exists. -/
def send_message (m : WSManager) (rid : String) (message : Message)
    (outcome : SendOutcome) (closeFails : Bool) :
    Except Unit (WSManager × Bool × List Action) :=
  let newCount : Nat := (m.messageCounters rid).getD 0 + 1
  let m1 : WSManager :=
    { m with messageCounters := mapSet m.messageCounters rid (some newCount) }
  let msg : Message := { message with messageId := some newCount }
  match m1.activeConnections rid with
  | some ws =>
      match sendPrim ws msg outcome with
      | Except.ok _ => Except.ok (m1, true, [Action.send ws msg])
      | Except.error _ =>
          match disconnect m1 rid closeFails with
          | Except.ok (m2, acts) =>
              Except.ok (queue_message m2 rid msg, false,
                Action.sendErr ws msg :: acts)
          | Except.error e => Except.error e
  | none => Except.ok (queue_message m1 rid msg, false, [])

/-- The `for message in messages_to_replay` loop of
`_replay_queued_messages` (lines 198-204): per message, if a live transport
exists attempt `send_json`, breaking on the first error; with no live
transport the iteration does nothing (and does not break).  `failAt i`
injects an exception into the i-th `send_json` attempt. -/
def replayLoop (conn : Option Nat) (msgs : List Message) (failAt : Nat → Bool)
    (i : Nat) : List Action :=
  match msgs with
  | [] => []
  | msg :: rest =>
      match conn with
      | some ws =>
          if failAt i then [Action.sendErr ws msg]
          else Action.send ws msg :: replayLoop conn rest failAt (i + 1)
      | none => replayLoop conn rest failAt (i + 1)

/-- `WebSocketManager._replay_queued_messages` (lines 176-207): short-circuit
when the queue dict has no entry; filter messages above the ack high-water
mark; only when the filtered list is non-empty, run the send loop and then
reset the queue entry to `[]`. -/
def replay_queued_messages (m : WSManager) (rid : String) (failAt : Nat → Bool) :
    WSManager × List Action :=
  match m.messageQueue rid with
  | none => (m, [])
  | some queued =>
      let lastAckId : Nat := (m.lastAck rid).getD 0
      let toReplay : List Message :=
        queued.filter (fun msg => lastAckId < msg.messageId.getD 0)
      if toReplay.isEmpty then (m, [])
      else
        ({ m with messageQueue := mapSet m.messageQueue rid (some []) },
         replayLoop (m.activeConnections rid) toReplay failAt 0)

/-- `WebSocketManager.acknowledge_message` (lines 209-218). -/
def acknowledge_message (m : WSManager) (rid : String) (messageId : Nat) :
    WSManager :=
  { m with
    lastAck :=
      mapSet m.lastAck rid (some (max ((m.lastAck rid).getD 0) messageId)) }

/-- Tail of `WebSocketManager.connect` (lines 62-73) after registration:
send the `connection_established` frame through the normal send path (so it
consumes a sequence number), then replay queued messages.  A raise from
`send_message` would escape the try block of `connect` and be re-raised. -/
def connectFinish (M : WSManager) (rid : String) (ws : Nat) (now : Nat)
    (confirmOutcome : SendOutcome) (closeFails : Bool)
    (replayFailAt : Nat → Bool) : Except Unit (WSManager × List Action) :=
  match send_message M rid
      { typ := "connection_established", timestamp := now }
      confirmOutcome closeFails with
  | Except.error e => Except.error e
  | Except.ok (m4, _delivered, acts1) =>
      let res := replay_queued_messages m4 rid replayFailAt
      Except.ok (res.fst, Action.accept ws :: acts1 ++ res.snd)

/-- `WebSocketManager.connect` (lines 34-77): accept the transport, register
it (overwriting any previous entry), overwrite the metadata with a fresh
record (`reconnection_count = 0`), initialise counter and ack entries only
when absent, send the `connection_established` frame through the normal
send path, then replay.  The surrounding `try/except` re-raises whatever it
catches, so an `accept` failure escapes to the caller. -/
def connect (m : WSManager) (rid : String) (ws : Nat) (userId : String)
    (now : Nat) (acceptFails : Bool) (confirmOutcome : SendOutcome)
    (closeFails : Bool) (replayFailAt : Nat → Bool) :
    Except Unit (WSManager × List Action) :=
  match acceptPrim ws acceptFails with
  | Except.error e => Except.error e
  | Except.ok _ =>
      let m1 : WSManager :=
        { m with
          activeConnections := mapSet m.activeConnections rid (some ws)
          connectionMetadata :=
            mapSet m.connectionMetadata rid
              (some { userId := userId, connectedAt := now,
                      lastHeartbeat := now, reconnectionCount := 0 }) }
      let m2 : WSManager :=
        if (m1.messageCounters rid).isSome then m1
        else { m1 with messageCounters := mapSet m1.messageCounters rid (some 0) }
      let m3 : WSManager :=
        if (m2.lastAck rid).isSome then m2
        else { m2 with lastAck := mapSet m2.lastAck rid (some 0) }
      connectFinish m3 rid ws now confirmOutcome closeFails replayFailAt

/-- Whether `cleanup_old_data` selects `rid` for removal: metadata exists,
no live transport, and the connection age strictly exceeds the maximum. -/
def staleSession (m : WSManager) (maxAge : Nat) (now : Nat) (rid : String) :
    Bool :=
  match m.connectionMetadata rid with
  | some md => (m.activeConnections rid).isNone && decide (maxAge < now - md.connectedAt)
  | none => false

/-- `WebSocketManager.cleanup_old_data` (lines 304-330): delete metadata,
queue, ack mark and counter for every stale session.  The Python two-phase
loop (collect ids, then delete) acts independently per id, so it is embedded
pointwise. -/
def cleanup_old_data (m : WSManager) (maxAgeHours : Nat) (now : Nat) :
    WSManager :=
  let maxAge : Nat := maxAgeHours * 3600
  { activeConnections := m.activeConnections
    connectionMetadata := fun rid =>
      if staleSession m maxAge now rid then none else m.connectionMetadata rid
    messageQueue := fun rid =>
      if staleSession m maxAge now rid then none else m.messageQueue rid
    lastAck := fun rid =>
      if staleSession m maxAge now rid then none else m.lastAck rid
    messageCounters := fun rid =>
      if staleSession m maxAge now rid then none else m.messageCounters rid }

/-- The body of the per-session `for request_id in request_ids` iteration of
`WebSocketManager.heartbeat_loop` (lines 237-264) for one session: skip when
metadata is missing; evict when silent beyond the 5-minute timeout; else
send the `heartbeat` frame directly over the transport (no counter, no
queue) and refresh `last_heartbeat` on success; a send error evicts. -/
def heartbeat_step (m : WSManager) (rid : String) (now : Nat)
    (outcome : SendOutcome) (closeFails : Bool) :
    Except Unit (WSManager × List Action) :=
  match m.connectionMetadata rid with
  | none => Except.ok (m, [])
  | some md =>
      if 300 < now - md.lastHeartbeat then
        disconnect m rid closeFails
      else
        match m.activeConnections rid with
        | some ws =>
            match sendPrim ws { typ := "heartbeat", timestamp := now } outcome with
            | Except.ok _ =>
                Except.ok
                  ({ m with
                     connectionMetadata :=
                       mapSet m.connectionMetadata rid
                         (some { md with lastHeartbeat := now }) },
                   [Action.send ws { typ := "heartbeat", timestamp := now }])
            | Except.error _ =>
                match disconnect m rid closeFails with
                | Except.ok (m2, acts) =>
                    Except.ok (m2,
                      Action.sendErr ws { typ := "heartbeat", timestamp := now } :: acts)
                | Except.error e => Except.error e
        | none => Except.ok (m, [])

/-- The frames handed to `send_json` in a trace (successful or not). -/
def framesOf (acts : List Action) : List Message :=
  acts.filterMap (fun a =>
    match a with
    | Action.send _ g => some g
    | Action.sendErr _ g => some g
    | _ => none)

/-- The frames successfully transmitted in a trace. -/
def sentMsgs (acts : List Action) : List Message :=
  acts.filterMap (fun a =>
    match a with
    | Action.send _ g => some g
    | _ => none)

/-- State component of an `Except`-wrapped pair result (connect, disconnect,
heartbeat), defaulting to the empty manager on error. -/
def resSt (r : Except Unit (WSManager × List Action)) : WSManager :=
  match r with
  | Except.ok p => p.fst
  | Except.error _ => emptyWS

/-- Trace component of an `Except`-wrapped pair result. -/
def resActs (r : Except Unit (WSManager × List Action)) : List Action :=
  match r with
  | Except.ok p => p.snd
  | Except.error _ => []

/-- State component of a `send_message` result. -/
def sres (r : Except Unit (WSManager × Bool × List Action)) : WSManager :=
  match r with
  | Except.ok p => p.fst
  | Except.error _ => emptyWS

/-- Delivered flag of a `send_message` result. -/
def sdelivered (r : Except Unit (WSManager × Bool × List Action)) : Bool :=
  match r with
  | Except.ok p => p.snd.fst
  | Except.error _ => false

/-- Trace component of a `send_message` result. -/
def sacts (r : Except Unit (WSManager × Bool × List Action)) : List Action :=
  match r with
  | Except.ok p => p.snd.snd
  | Except.error _ => []

/-- Claim C1: every `send_message` call assigns, to the outgoing frame, the
sequence number one greater than the previous counter value for that session
(1 when the session has no counter yet), stores that value back as the
counter, and does so regardless of whether the frame is delivered live,
queued after a transport failure, or queued because no live transport
exists; any copy appended to the delivery queue carries the same number. -/
theorem send_message_assigns_next_sequence (m : WSManager) (rid : String)
    (message : Message) (outcome : SendOutcome) (closeFails : Bool)
    (m2 : WSManager) (delivered : Bool) (acts : List Action)
    (h : send_message m rid message outcome closeFails =
      Except.ok (m2, delivered, acts)) :
    m2.messageCounters rid = some ((m.messageCounters rid).getD 0 + 1) ∧
    (∀ g ∈ framesOf acts,
      g.messageId = some ((m.messageCounters rid).getD 0 + 1)) ∧
    (m2.messageQueue rid = m.messageQueue rid ∨
      m2.messageQueue rid =
        some ((m.messageQueue rid).getD [] ++
          [{ message with
             messageId := some ((m.messageCounters rid).getD 0 + 1) }])) := by
  rcases ha : m.activeConnections rid with _ | ws
  · simp [send_message, ha, Except.ok.injEq, Prod.mk.injEq] at h
    obtain ⟨hm2, _hd, hacts⟩ := h
    subst hm2
    subst hacts
    refine ⟨by simp [queue_message, mapSet], by simp [framesOf], Or.inr ?_⟩
    simp [queue_message, mapSet]
  · rcases outcome with _ | _ | _ <;> cases closeFails <;>
      · simp [send_message, sendPrim, disconnect, closePrim, ha,
          Except.ok.injEq, Prod.mk.injEq] at h
        obtain ⟨hm2, _hd, hacts⟩ := h
        subst hm2
        subst hacts
        refine ⟨by simp [queue_message, mapSet], ?_, ?_⟩ <;>
          simp [framesOf, queue_message, mapSet]

/-- Witness for C1 at a concrete input: the first `send_message` for a fresh
session assigns sequence number 1 and appends the stamped frame to the
queue (no live transport exists in `emptyWS`). -/
theorem send_message_assigns_next_sequence_witness :
    (sres (send_message emptyWS "r" { typ := "t", timestamp := 0 }
        SendOutcome.ok false)).messageCounters "r" = some 1 ∧
    ((sres (send_message emptyWS "r" { typ := "t", timestamp := 0 }
        SendOutcome.ok false)).messageQueue "r" = emptyWS.messageQueue "r" ∨
      (sres (send_message emptyWS "r" { typ := "t", timestamp := 0 }
        SendOutcome.ok false)).messageQueue "r" =
        some [{ typ := "t", timestamp := 0, messageId := some 1 }]) := by
  have h : send_message emptyWS "r" { typ := "t", timestamp := 0 }
      SendOutcome.ok false =
      Except.ok
        (sres (send_message emptyWS "r" { typ := "t", timestamp := 0 }
          SendOutcome.ok false),
         sdelivered (send_message emptyWS "r" { typ := "t", timestamp := 0 }
          SendOutcome.ok false),
         sacts (send_message emptyWS "r" { typ := "t", timestamp := 0 }
          SendOutcome.ok false)) := rfl
  have hc := send_message_assigns_next_sequence emptyWS "r"
    { typ := "t", timestamp := 0 } SendOutcome.ok false _ _ _ h
  exact ⟨hc.1, hc.2.2⟩

/-- Claim C5: `acknowledge_message` sets the high-water mark to the maximum
of its current value (0 when absent) and the acknowledged id, hence it never
decreases it, and acknowledging 3 then 2 leaves it at 3. -/
theorem acknowledge_message_sets_max (m : WSManager) (rid : String)
    (messageId : Nat) :
    (acknowledge_message m rid messageId).lastAck rid =
      some (max ((m.lastAck rid).getD 0) messageId) ∧
    (m.lastAck rid).getD 0 ≤
      ((acknowledge_message m rid messageId).lastAck rid).getD 0 ∧
    (∀ a b : Nat,
      ((acknowledge_message (acknowledge_message m rid a) rid b).lastAck
          rid).getD 0 =
        max (max ((m.lastAck rid).getD 0) a) b) ∧
    ((acknowledge_message (acknowledge_message emptyWS "r" 3) "r" 2).lastAck
        "r").getD 0 = 3 := by
  refine ⟨by simp [acknowledge_message, mapSet], ?_, ?_, by decide⟩
  · simp [acknowledge_message, mapSet]
  · intro a b
    simp [acknowledge_message, mapSet]

/-- Claim C6: `send_message` never lets a transport fault escape (its result
is always `Except.ok`, a boolean outcome); on a transmission failure it runs
the disconnect logic (the live transport is closed and deregistered), appends
the frame — already carrying its assigned sequence number — to the delivery
queue and reports `false`; with no live transport it appends to the queue
and reports `false`. -/
theorem send_message_fault_disconnects_queues_returns_false (m : WSManager)
    (rid : String) (message : Message) (outcome : SendOutcome)
    (closeFails : Bool) (m2 : WSManager) (delivered : Bool)
    (acts : List Action)
    (h : send_message m rid message outcome closeFails =
      Except.ok (m2, delivered, acts)) :
    (send_message m rid message outcome closeFails).isOk = true ∧
    (∀ ws, m.activeConnections rid = some ws → outcome ≠ SendOutcome.ok →
      delivered = false ∧
      m2.activeConnections rid = none ∧
      Action.close ws ∈ acts ∧
      m2.messageQueue rid =
        some ((m.messageQueue rid).getD [] ++
          [{ message with
             messageId := some ((m.messageCounters rid).getD 0 + 1) }])) ∧
    (m.activeConnections rid = none →
      delivered = false ∧
      m2.messageQueue rid =
        some ((m.messageQueue rid).getD [] ++
          [{ message with
             messageId := some ((m.messageCounters rid).getD 0 + 1) }])) := by
  refine ⟨by rw [h]; rfl, ?_, ?_⟩
  · intro ws ha hout
    rcases outcome with _ | _ | _
    · exact absurd rfl hout
    all_goals
      cases closeFails <;>
      · simp [send_message, sendPrim, disconnect, closePrim, ha,
          Except.ok.injEq, Prod.mk.injEq] at h
        obtain ⟨hm2, hd, hacts⟩ := h
        subst hm2
        subst hacts
        exact ⟨hd, by simp [queue_message, mapSet],
          by simp, by simp [queue_message, mapSet]⟩
  · intro ha
    simp [send_message, ha, Except.ok.injEq, Prod.mk.injEq] at h
    obtain ⟨hm2, hd, hacts⟩ := h
    subst hm2
    exact ⟨hd, by simp [queue_message, mapSet]⟩

/-- Concrete state for the C6 witness: one live transport (handle 5) for
session "r". -/
def exC6 : WSManager :=
  { emptyWS with
    activeConnections := fun k => if k = "r" then some 5 else none }

/-- Witness for C6 at a concrete input: a `WebSocketDisconnect` during the
send leaves the session deregistered, the stamped frame queued, and the
caller sees `false`. -/
theorem send_message_fault_witness :
    (sdelivered (send_message exC6 "r" { typ := "t", timestamp := 0 }
        SendOutcome.wsDisconnect false) = false) ∧
    (sres (send_message exC6 "r" { typ := "t", timestamp := 0 }
        SendOutcome.wsDisconnect false)).activeConnections "r" = none ∧
    Action.close 5 ∈ sacts (send_message exC6 "r" { typ := "t", timestamp := 0 }
        SendOutcome.wsDisconnect false) ∧
    (sres (send_message exC6 "r" { typ := "t", timestamp := 0 }
        SendOutcome.wsDisconnect false)).messageQueue "r" =
      some [{ typ := "t", timestamp := 0, messageId := some 1 }] := by
  have h : send_message exC6 "r" { typ := "t", timestamp := 0 }
      SendOutcome.wsDisconnect false =
      Except.ok
        (sres (send_message exC6 "r" { typ := "t", timestamp := 0 }
          SendOutcome.wsDisconnect false),
         sdelivered (send_message exC6 "r" { typ := "t", timestamp := 0 }
          SendOutcome.wsDisconnect false),
         sacts (send_message exC6 "r" { typ := "t", timestamp := 0 }
          SendOutcome.wsDisconnect false)) := rfl
  have hc := send_message_fault_disconnects_queues_returns_false exC6 "r"
    { typ := "t", timestamp := 0 } SendOutcome.wsDisconnect false _ _ _ h
  have hf := hc.2.1 5 rfl (by decide)
  exact ⟨hf.1, hf.2.1, hf.2.2.1, hf.2.2.2⟩

lemma sentMsgs_nil : sentMsgs [] = [] := rfl

lemma sentMsgs_cons_send (ws : Nat) (msg : Message) (l : List Action) :
    sentMsgs (Action.send ws msg :: l) = msg :: sentMsgs l := rfl

lemma sentMsgs_cons_sendErr (ws : Nat) (msg : Message) (l : List Action) :
    sentMsgs (Action.sendErr ws msg :: l) = sentMsgs l := rfl

lemma framesOf_nil : framesOf [] = [] := rfl

lemma framesOf_cons_send (ws : Nat) (msg : Message) (l : List Action) :
    framesOf (Action.send ws msg :: l) = msg :: framesOf l := rfl

lemma framesOf_cons_sendErr (ws : Nat) (msg : Message) (l : List Action) :
    framesOf (Action.sendErr ws msg :: l) = msg :: framesOf l := rfl

/-- When no send attempt fails, the replay loop transmits every message, in
list order. -/
lemma replayLoop_sent_of_no_failure (ws : Nat) (msgs : List Message)
    (failAt : Nat → Bool) (i : Nat) (h : ∀ j, failAt j = false) :
    sentMsgs (replayLoop (some ws) msgs failAt i) = msgs := by
  induction msgs generalizing i with
  | nil => rfl
  | cons msg rest ih =>
      rw [replayLoop]
      simp only [h i, if_false, Bool.false_eq_true, sentMsgs_cons_send]
      rw [ih (i + 1)]

/-- When the j-th send attempt is the first to fail, the replay loop
transmits exactly the first j messages, in list order. -/
lemma replayLoop_sent_take (ws : Nat) (msgs : List Message)
    (failAt : Nat → Bool) (i j : Nat)
    (hlt : ∀ k, k < j → failAt (i + k) = false) (hj : failAt (i + j) = true) :
    sentMsgs (replayLoop (some ws) msgs failAt i) = msgs.take j := by
  induction msgs generalizing i j with
  | nil => simp [replayLoop, sentMsgs_nil]
  | cons msg rest ih =>
      rcases j with _ | j2
      · have h0 : failAt i = true := by simpa using hj
        rw [replayLoop]
        simp [h0, sentMsgs_cons_sendErr, sentMsgs_nil]
      · have h0 : failAt i = false := by simpa using hlt 0 (Nat.succ_pos _)
        rw [replayLoop]
        simp only [h0, if_false, Bool.false_eq_true, sentMsgs_cons_send,
          List.take_succ_cons]
        rw [ih (i + 1) j2]
        · intro k hk
          have e : i + 1 + k = i + (k + 1) := by omega
          rw [e]
          exact hlt (k + 1) (by omega)
        · have e : i + 1 + j2 = i + (j2 + 1) := by omega
          rw [e]
          exact hj

/-- The frames handed to the transport by the replay loop form a sublist of
the filtered message list. -/
lemma replayLoop_frames_sublist (conn : Option Nat) (msgs : List Message)
    (failAt : Nat → Bool) (i : Nat) :
    (framesOf (replayLoop conn msgs failAt i)).Sublist msgs := by
  rcases conn with _ | ws
  · induction msgs generalizing i with
    | nil => simp [replayLoop, framesOf_nil]
    | cons msg rest ih =>
        rw [replayLoop]
        exact (ih (i + 1)).cons msg
  · induction msgs generalizing i with
    | nil => simp [replayLoop, framesOf_nil]
    | cons msg rest ih =>
        rw [replayLoop]
        cases hf : failAt i
        · simp only [hf, Bool.false_eq_true, if_false, framesOf_cons_send]
          exact (ih (i + 1)).cons₂ msg
        · simp only [hf, if_true]
          rw [show framesOf [Action.sendErr ws msg] = [msg] from rfl]
          exact (List.nil_sublist rest).cons₂ msg

/-- The successfully transmitted frames form a sublist of the filtered
message list. -/
lemma replayLoop_sent_sublist (conn : Option Nat) (msgs : List Message)
    (failAt : Nat → Bool) (i : Nat) :
    (sentMsgs (replayLoop conn msgs failAt i)).Sublist msgs := by
  rcases conn with _ | ws
  · induction msgs generalizing i with
    | nil => simp [replayLoop, sentMsgs_nil]
    | cons msg rest ih =>
        rw [replayLoop]
        exact (ih (i + 1)).cons msg
  · induction msgs generalizing i with
    | nil => simp [replayLoop, sentMsgs_nil]
    | cons msg rest ih =>
        rw [replayLoop]
        cases hf : failAt i
        · simp only [hf, Bool.false_eq_true, if_false, sentMsgs_cons_send]
          exact (ih (i + 1)).cons₂ msg
        · simp only [hf, if_true]
          rw [show sentMsgs [Action.sendErr ws msg] = [] from rfl]
          exact List.nil_sublist _

/-- Claim C2: with a live transport, replay transmits exactly the queued
messages whose sequence number exceeds the acknowledgment high-water mark,
in ascending sequence order, stopping at the first transmission error: with
no failure all filtered messages go out; when attempt j is the first to
fail only the first j filtered messages go out; every frame handed to the
transport is a filtered one; and the transmitted ids are strictly
ascending whenever the queued ids are. -/
theorem replay_transmits_exactly_unacked_in_order (m : WSManager)
    (rid : String) (ws : Nat) (queued : List Message) (failAt : Nat → Bool)
    (hq : m.messageQueue rid = some queued)
    (hc : m.activeConnections rid = some ws)
    (hsorted :
      (queued.map (fun g => g.messageId.getD 0)).Pairwise (· < ·)) :
    ((∀ j, failAt j = false) →
      sentMsgs (replay_queued_messages m rid failAt).snd =
        queued.filter
          (fun g => (m.lastAck rid).getD 0 < g.messageId.getD 0)) ∧
    (∀ j, (∀ k, k < j → failAt k = false) → failAt j = true →
      sentMsgs (replay_queued_messages m rid failAt).snd =
        (queued.filter
          (fun g => (m.lastAck rid).getD 0 < g.messageId.getD 0)).take j) ∧
    (∀ g ∈ framesOf (replay_queued_messages m rid failAt).snd,
      g ∈ queued.filter
        (fun g2 => (m.lastAck rid).getD 0 < g2.messageId.getD 0)) ∧
    ((sentMsgs (replay_queued_messages m rid failAt).snd).map
        (fun g => g.messageId.getD 0)).Pairwise (· < ·) := by
  by_cases hF : (queued.filter
      (fun g => (m.lastAck rid).getD 0 < g.messageId.getD 0)).isEmpty = true
  · have hFnil : queued.filter
        (fun g => (m.lastAck rid).getD 0 < g.messageId.getD 0) = [] :=
      List.isEmpty_iff.mp hF
    have hrep : (replay_queued_messages m rid failAt).snd = [] := by
      simp [replay_queued_messages, hq, hF, hFnil]
    rw [hrep, hFnil]
    exact ⟨fun _ => rfl, fun j _ _ => by simp [sentMsgs_nil],
      by simp [framesOf_nil], by simp [sentMsgs_nil]⟩
  · have hrep : (replay_queued_messages m rid failAt).snd =
        replayLoop (some ws)
          (queued.filter
            (fun g => (m.lastAck rid).getD 0 < g.messageId.getD 0))
          failAt 0 := by
      simp [replay_queued_messages, hq, hc, hF]
    rw [hrep]
    refine ⟨fun hnf => replayLoop_sent_of_no_failure ws _ failAt 0 hnf,
      fun j hlt hj =>
        replayLoop_sent_take ws _ failAt 0 j
          (fun k hk => by rw [Nat.zero_add]; exact hlt k hk)
          (by rw [Nat.zero_add]; exact hj),
      fun g hg => (replayLoop_frames_sublist _ _ _ _).subset hg, ?_⟩
    have hsub : ((sentMsgs (replayLoop (some ws)
        (queued.filter
          (fun g => (m.lastAck rid).getD 0 < g.messageId.getD 0))
        failAt 0)).map (fun g => g.messageId.getD 0)).Sublist
        (queued.map (fun g => g.messageId.getD 0)) :=
      List.Sublist.map _
        ((replayLoop_sent_sublist _ _ _ _).trans (List.filter_sublist _))
    exact hsorted.sublist hsub

/-- Concrete state for the C2 witness: session "r" has queued messages with
ids 1..5, acknowledgment high-water mark 3, and a live transport
(handle 7). -/
def exC2 : WSManager :=
  { emptyWS with
    activeConnections := fun k => if k = "r" then some 7 else none
    messageQueue := fun k =>
      if k = "r" then
        some [{ typ := "t", timestamp := 1, messageId := some 1 },
              { typ := "t", timestamp := 2, messageId := some 2 },
              { typ := "t", timestamp := 3, messageId := some 3 },
              { typ := "t", timestamp := 4, messageId := some 4 },
              { typ := "t", timestamp := 5, messageId := some 5 }]
      else none
    lastAck := fun k => if k = "r" then some 3 else none }

/-- Witness for C2: after acknowledging id 3 out of queued ids 1..5, a
failure-free replay transmits exactly the messages with ids 4 and 5. -/
theorem replay_transmits_exactly_unacked_witness :
    sentMsgs (replay_queued_messages exC2 "r" (fun _ => false)).snd =
      [{ typ := "t", timestamp := 4, messageId := some 4 },
       { typ := "t", timestamp := 5, messageId := some 5 }] := by
  have hc := replay_transmits_exactly_unacked_in_order exC2 "r" 7
    [{ typ := "t", timestamp := 1, messageId := some 1 },
     { typ := "t", timestamp := 2, messageId := some 2 },
     { typ := "t", timestamp := 3, messageId := some 3 },
     { typ := "t", timestamp := 4, messageId := some 4 },
     { typ := "t", timestamp := 5, messageId := some 5 }]
    (fun _ => false) rfl rfl (by decide)
  exact (hc.1 (fun _ => rfl)).trans (by decide)

/-- Concrete state for the C3 counterexample: session "r" has a non-empty
queue whose only message (id 1) is already covered by the high-water mark,
and a live transport. -/
def exC3 : WSManager :=
  { emptyWS with
    activeConnections := fun k => if k = "r" then some 7 else none
    messageQueue := fun k =>
      if k = "r" then some [{ typ := "t", timestamp := 1, messageId := some 1 }]
      else none
    lastAck := fun k => if k = "r" then some 1 else none }

/-- Counterexample to C3 as stated: when every queued message is filtered
out by the acknowledgment high-water mark, replay leaves the non-empty
queue in place instead of clearing it. -/
theorem replay_keeps_fully_acked_queue_cex :
    (replay_queued_messages exC3 "r" (fun _ => false)).fst.messageQueue "r" =
      some [{ typ := "t", timestamp := 1, messageId := some 1 }] ∧
    (some [{ typ := "t", timestamp := 1, messageId := some 1 }] :
      Option (List Message)) ≠ some [] := by
  exact ⟨by decide, by decide⟩

/-- Claim C3 (amended): after a replay invocation the queue entry is reset
to the empty list whenever at least one queued message passes the
acknowledgment filter — even if transmissions fail partway or no live
transport exists — but when every queued message is filtered out the whole
state, queue included, is left unchanged. -/
theorem replay_clears_queue_iff_some_unacked (m : WSManager) (rid : String)
    (queued : List Message) (failAt : Nat → Bool)
    (hq : m.messageQueue rid = some queued) :
    (queued.filter (fun g => (m.lastAck rid).getD 0 < g.messageId.getD 0) ≠ [] →
      (replay_queued_messages m rid failAt).fst.messageQueue rid = some []) ∧
    (queued.filter (fun g => (m.lastAck rid).getD 0 < g.messageId.getD 0) = [] →
      (replay_queued_messages m rid failAt).fst = m) := by
  constructor
  · intro hne
    have hF : (queued.filter
        (fun g => (m.lastAck rid).getD 0 < g.messageId.getD 0)).isEmpty = false := by
      cases hE : (queued.filter
          (fun g => (m.lastAck rid).getD 0 < g.messageId.getD 0)).isEmpty
      · rfl
      · exact absurd (List.isEmpty_iff.mp hE) hne
    simp [replay_queued_messages, hq, hF, mapSet]
  · intro hnil
    simp [replay_queued_messages, hq, hnil]

/-- Witness for C3 (amended) at a concrete input: in `exC2` two messages
(ids 4, 5) pass the filter, so replay resets the queue entry to `[]`; in
`exC3` none passes, so the state is returned unchanged. -/
theorem replay_clears_queue_iff_some_unacked_witness :
    (replay_queued_messages exC2 "r" (fun _ => false)).fst.messageQueue "r" =
      some [] ∧
    (replay_queued_messages exC3 "r" (fun _ => false)).fst = exC3 := by
  constructor
  · exact (replay_clears_queue_iff_some_unacked exC2 "r"
      [{ typ := "t", timestamp := 1, messageId := some 1 },
       { typ := "t", timestamp := 2, messageId := some 2 },
       { typ := "t", timestamp := 3, messageId := some 3 },
       { typ := "t", timestamp := 4, messageId := some 4 },
       { typ := "t", timestamp := 5, messageId := some 5 }]
      (fun _ => false) rfl).1 (by decide)
  · exact (replay_clears_queue_iff_some_unacked exC3 "r"
      [{ typ := "t", timestamp := 1, messageId := some 1 }]
      (fun _ => false) rfl).2 (by decide)

/-- Replay touches only the queue component of the state. -/
lemma replay_preserves (m : WSManager) (rid : String) (failAt : Nat → Bool) :
    (replay_queued_messages m rid failAt).fst.activeConnections =
      m.activeConnections ∧
    (replay_queued_messages m rid failAt).fst.connectionMetadata =
      m.connectionMetadata ∧
    (replay_queued_messages m rid failAt).fst.lastAck = m.lastAck ∧
    (replay_queued_messages m rid failAt).fst.messageCounters =
      m.messageCounters := by
  rcases hq : m.messageQueue rid with _ | q
  · simp [replay_queued_messages, hq]
  · simp only [replay_queued_messages, hq]
    split <;> simp

/-- The replay loop performs no close calls. -/
lemma replayLoop_no_close (conn : Option Nat) (msgs : List Message)
    (failAt : Nat → Bool) (i : Nat) (w : Nat) :
    Action.close w ∉ replayLoop conn msgs failAt i := by
  rcases conn with _ | ws
  · induction msgs generalizing i with
    | nil => simp [replayLoop]
    | cons msg rest ih =>
        rw [replayLoop]
        exact ih (i + 1)
  · induction msgs generalizing i with
    | nil => simp [replayLoop]
    | cons msg rest ih =>
        rw [replayLoop]
        cases hf : failAt i
        · simp only [hf, Bool.false_eq_true, if_false]
          intro hmem
          rcases List.mem_cons.mp hmem with h1 | h2
          · cases h1
          · exact ih (i + 1) h2
        · simp [hf]

/-- Replay never closes a transport. -/
lemma replay_no_close (m : WSManager) (rid : String) (failAt : Nat → Bool)
    (w : Nat) : Action.close w ∉ (replay_queued_messages m rid failAt).snd := by
  rcases hq : m.messageQueue rid with _ | q
  · simp [replay_queued_messages, hq]
  · simp only [replay_queued_messages, hq]
    split
    · simp
    · exact replayLoop_no_close _ _ _ _ _

/-- `send_message` touches neither the metadata nor the ack map. -/
lemma send_message_preserves (m : WSManager) (rid : String)
    (message : Message) (outcome : SendOutcome) (closeFails : Bool)
    (m2 : WSManager) (delivered : Bool) (acts : List Action)
    (h : send_message m rid message outcome closeFails =
      Except.ok (m2, delivered, acts)) :
    m2.connectionMetadata = m.connectionMetadata ∧ m2.lastAck = m.lastAck := by
  rcases ha : m.activeConnections rid with _ | ws
  · simp [send_message, ha, Except.ok.injEq, Prod.mk.injEq] at h
    obtain ⟨hm2, _, _⟩ := h
    subst hm2
    exact ⟨rfl, rfl⟩
  · rcases outcome with _ | _ | _ <;> cases closeFails <;>
      · simp [send_message, sendPrim, disconnect, closePrim, ha,
          Except.ok.injEq, Prod.mk.injEq] at h
        obtain ⟨hm2, _, _⟩ := h
        subst hm2
        exact ⟨rfl, rfl⟩

/-- A successful `send_message` leaves the connection registry unchanged. -/
lemma send_message_ok_preserves_active (m : WSManager) (rid : String)
    (message : Message) (closeFails : Bool)
    (m2 : WSManager) (delivered : Bool) (acts : List Action)
    (h : send_message m rid message SendOutcome.ok closeFails =
      Except.ok (m2, delivered, acts)) :
    m2.activeConnections = m.activeConnections := by
  rcases ha : m.activeConnections rid with _ | ws
  · simp [send_message, ha, Except.ok.injEq, Prod.mk.injEq] at h
    obtain ⟨hm2, _, _⟩ := h
    subst hm2
    rfl
  · simp [send_message, sendPrim, ha, Except.ok.injEq, Prod.mk.injEq] at h
    obtain ⟨hm2, _, _⟩ := h
    subst hm2
    rfl

/-- The only transport `send_message` can close is the live transport of
the session it was called for. -/
lemma send_message_close_only_own (m : WSManager) (rid : String)
    (message : Message) (outcome : SendOutcome) (closeFails : Bool)
    (m2 : WSManager) (delivered : Bool) (acts : List Action)
    (h : send_message m rid message outcome closeFails =
      Except.ok (m2, delivered, acts))
    (w : Nat) (hw : Action.close w ∈ acts) :
    m.activeConnections rid = some w := by
  rcases ha : m.activeConnections rid with _ | ws
  · simp [send_message, ha, Except.ok.injEq, Prod.mk.injEq] at h
    obtain ⟨_, _, hacts⟩ := h
    subst hacts
    simp at hw
  · rcases outcome with _ | _ | _
    · simp [send_message, sendPrim, ha, Except.ok.injEq, Prod.mk.injEq] at h
      obtain ⟨_, _, hacts⟩ := h
      subst hacts
      simp at hw
    · cases closeFails <;>
        · simp [send_message, sendPrim, disconnect, closePrim, ha,
            Except.ok.injEq, Prod.mk.injEq] at h
          obtain ⟨_, _, hacts⟩ := h
          subst hacts
          simp at hw
          subst hw
          rfl
    · cases closeFails <;>
        · simp [send_message, sendPrim, disconnect, closePrim, ha,
            Except.ok.injEq, Prod.mk.injEq] at h
          obtain ⟨_, _, hacts⟩ := h
          subst hacts
          simp at hw
          subst hw
          rfl

/-- For every injected transport outcome, `send_message` returns a value
rather than raising. -/
lemma send_message_isOk (m : WSManager) (rid : String) (message : Message)
    (outcome : SendOutcome) (closeFails : Bool) :
    (send_message m rid message outcome closeFails).isOk = true := by
  rcases ha : m.activeConnections rid with _ | ws
  · simp [send_message, ha, Except.isOk, Except.toBool]
  · rcases outcome with _ | _ | _ <;> cases closeFails <;>
      simp [send_message, sendPrim, disconnect, closePrim, ha, Except.isOk, Except.toBool]

/-- `send_message` never evaluates to an exception. -/
lemma send_message_ne_error (m : WSManager) (rid : String) (message : Message)
    (outcome : SendOutcome) (closeFails : Bool) (e : Unit) :
    send_message m rid message outcome closeFails ≠ Except.error e := by
  intro h
  have h2 := send_message_isOk m rid message outcome closeFails
  rw [h] at h2
  simp [Except.isOk, Except.toBool] at h2

/-- Claim C4 (amended): `disconnect` never raises to its caller whatever the
close outcome, and `connect` never raises for transport failures during the
confirmation send or the replay; but `connect` re-raises an `accept`
failure, so it is not exception-free for every transport-level fault. -/
theorem disconnect_never_raises_connect_reraises_accept (m : WSManager)
    (rid userId : String) (ws now : Nat) (closeFails : Bool)
    (confirmOutcome : SendOutcome) (replayFailAt : Nat → Bool) :
    (disconnect m rid closeFails).isOk = true ∧
    (connect m rid ws userId now false confirmOutcome closeFails
        replayFailAt).isOk = true ∧
    connect m rid ws userId now true confirmOutcome closeFails replayFailAt =
      Except.error () := by
  refine ⟨?_, ?_, rfl⟩
  · rcases ha : m.activeConnections rid with _ | w <;>
      cases closeFails <;> simp [disconnect, closePrim, ha, Except.isOk, Except.toBool]
  · rw [connect]
    simp only [acceptPrim, Bool.false_eq_true, if_false]
    rw [connectFinish]
    split
    · next e heq =>
        exact absurd heq (send_message_ne_error _ _ _ _ _ _)
    · rfl

/-- Counterexample to C4 as stated: a failing `accept` makes `connect`
propagate the exception to its caller. -/
theorem connect_raises_on_accept_cex :
    connect emptyWS "r" 1 "u" 0 true SendOutcome.ok false (fun _ => false) =
      Except.error () ∧
    (connect emptyWS "r" 1 "u" 0 true SendOutcome.ok false
        (fun _ => false)).isOk = false :=
  ⟨rfl, rfl⟩

/-- After the confirmation-send and replay tail of `connect`: the metadata
map is exactly that of the registered state, any transport closed in the
tail is the live transport for this session in the registered state, and on
a successful confirmation send the connection registry is untouched. -/
lemma connectFinish_post (M : WSManager) (rid : String) (ws now : Nat)
    (confirmOutcome : SendOutcome) (closeFails : Bool)
    (replayFailAt : Nat → Bool) (m2 : WSManager) (acts : List Action)
    (h : connectFinish M rid ws now confirmOutcome closeFails replayFailAt =
      Except.ok (m2, acts)) :
    m2.connectionMetadata = M.connectionMetadata ∧
    (∀ w, Action.close w ∈ acts → M.activeConnections rid = some w) ∧
    (confirmOutcome = SendOutcome.ok →
      m2.activeConnections = M.activeConnections) := by
  rcases hs : send_message M rid
      { typ := "connection_established", timestamp := now }
      confirmOutcome closeFails with e | ⟨m4, d1, acts1⟩
  · exact absurd hs (send_message_ne_error _ _ _ _ _ _)
  · simp only [connectFinish, hs, Except.ok.injEq, Prod.mk.injEq] at h
    obtain ⟨hm2, hacts⟩ := h
    subst hm2
    subst hacts
    refine ⟨?_, ?_, ?_⟩
    · rw [(replay_preserves m4 rid replayFailAt).2.1]
      exact (send_message_preserves _ _ _ _ _ _ _ _ hs).1
    · intro w hw
      rcases List.mem_cons.mp hw with h1 | h2
      · cases h1
      · rcases List.mem_append.mp h2 with h3 | h4
        · exact send_message_close_only_own _ _ _ _ _ _ _ _ hs w h3
        · exact absurd h4 (replay_no_close _ _ _ _)
    · intro hco
      subst hco
      rw [(replay_preserves m4 rid replayFailAt).1]
      exact send_message_ok_preserves_active _ _ _ _ _ _ _ hs

/-- Claim C7 (amended): a `connect` for a session id that already has a live
transport and metadata registers the new transport while never closing the
previous one, resets connected_at and last_heartbeat to now, and resets the
reconnection count to 0 rather than incrementing it; after a successful
confirmation send the new transport is the registered one. -/
theorem connect_replaces_without_close_resets_count (m : WSManager)
    (rid userId : String) (ws now oldWs : Nat) (oldMd : ConnMetadata)
    (confirmOutcome : SendOutcome) (closeFails : Bool)
    (replayFailAt : Nat → Bool) (m2 : WSManager) (acts : List Action)
    (_hold : m.activeConnections rid = some oldWs)
    (_hmd : m.connectionMetadata rid = some oldMd)
    (hne : oldWs ≠ ws)
    (h : connect m rid ws userId now false confirmOutcome closeFails
        replayFailAt = Except.ok (m2, acts)) :
    m2.connectionMetadata rid =
      some { userId := userId, connectedAt := now, lastHeartbeat := now,
             reconnectionCount := 0 } ∧
    Action.close oldWs ∉ acts ∧
    (confirmOutcome = SendOutcome.ok →
      m2.activeConnections rid = some ws) := by
  rw [connect] at h
  rcases hcnt : m.messageCounters rid with _ | c0 <;>
    rcases hack : m.lastAck rid with _ | a0 <;>
    · simp only [acceptPrim, Bool.false_eq_true, if_false] at h
      simp [hcnt, hack] at h
      obtain ⟨hmeta, hcl, hok⟩ := connectFinish_post _ _ _ _ _ _ _ _ _ h
      refine ⟨?_, ?_, ?_⟩
      · rw [congrFun hmeta rid]
        simp [mapSet]
      · intro hmem
        have h2 := hcl oldWs hmem
        simp [mapSet] at h2
        exact hne h2.symm
      · intro hco
        rw [congrFun (hok hco) rid]
        simp [mapSet]

/-- Concrete state for C7: session "r" has live transport 1 and existing
metadata with reconnection count 5. -/
def exC7 : WSManager :=
  { emptyWS with
    activeConnections := fun k => if k = "r" then some 1 else none
    connectionMetadata := fun k =>
      if k = "r" then
        some { userId := "u", connectedAt := 0, lastHeartbeat := 0,
               reconnectionCount := 5 }
      else none }

/-- Counterexample to C7 as stated: reconnecting session "r" with a new
transport (handle 2) never closes transport 1, and stores reconnection
count 0, not the incremented 6. -/
theorem connect_no_close_no_increment_cex :
    Action.close 1 ∉ resActs (connect exC7 "r" 2 "u" 10 false SendOutcome.ok
      false (fun _ => false)) ∧
    (resSt (connect exC7 "r" 2 "u" 10 false SendOutcome.ok false
      (fun _ => false))).connectionMetadata "r" =
      some { userId := "u", connectedAt := 10, lastHeartbeat := 10,
             reconnectionCount := 0 } ∧
    (some { userId := "u", connectedAt := 10, lastHeartbeat := 10,
            reconnectionCount := 0 } : Option ConnMetadata) ≠
      some { userId := "u", connectedAt := 10, lastHeartbeat := 10,
             reconnectionCount := 6 } := by
  refine ⟨by decide, by decide, by decide⟩

/-- Witness for C7 (amended) at a concrete input: reconnecting session "r"
of `exC7` with transport 2 resets the metadata and closes nothing. -/
theorem connect_replaces_witness :
    exC7.activeConnections "r" = some 1 ∧ (1 : Nat) ≠ 2 ∧
    (resSt (connect exC7 "r" 2 "u" 10 false SendOutcome.ok false
      (fun _ => false))).connectionMetadata "r" =
      some { userId := "u", connectedAt := 10, lastHeartbeat := 10,
             reconnectionCount := 0 } ∧
    Action.close 1 ∉ resActs (connect exC7 "r" 2 "u" 10 false SendOutcome.ok
      false (fun _ => false)) ∧
    (resSt (connect exC7 "r" 2 "u" 10 false SendOutcome.ok false
      (fun _ => false))).activeConnections "r" = some 2 := by
  have h : connect exC7 "r" 2 "u" 10 false SendOutcome.ok false
      (fun _ => false) =
      Except.ok
        (resSt (connect exC7 "r" 2 "u" 10 false SendOutcome.ok false
          (fun _ => false)),
         resActs (connect exC7 "r" 2 "u" 10 false SendOutcome.ok false
          (fun _ => false))) := rfl
  obtain ⟨h1, h2, h3⟩ := connect_replaces_without_close_resets_count exC7
    "r" "u" 2 10 1
    { userId := "u", connectedAt := 0, lastHeartbeat := 0,
      reconnectionCount := 5 }
    SendOutcome.ok false (fun _ => false) _ _ rfl rfl (by decide) h
  exact ⟨rfl, by decide, h1, h2, h3 rfl⟩

/-- Concrete state for C8 and C10: session "r" is disconnected (no live
transport) but still has metadata (connected at time 0), a queued message,
high-water mark 9 and counter 9. -/
def exC8 : WSManager :=
  { emptyWS with
    connectionMetadata := fun k =>
      if k = "r" then
        some { userId := "u", connectedAt := 0, lastHeartbeat := 0,
               reconnectionCount := 0 }
      else none
    messageQueue := fun k =>
      if k = "r" then some [{ typ := "t", timestamp := 0, messageId := some 9 }]
      else none
    lastAck := fun k => if k = "r" then some 9 else none
    messageCounters := fun k => if k = "r" then some 9 else none }

/-- Counterexample to C8 as stated: after cleanup has removed all state of
session "r", acknowledging id 3 is not a state-preserving no-op — it
re-creates the high-water-mark entry with value 3. -/
theorem cleanup_then_ack_not_noop_cex :
    (cleanup_old_data exC8 0 10).lastAck "r" = none ∧
    (acknowledge_message (cleanup_old_data exC8 0 10) "r" 3).lastAck "r" =
      some 3 ∧
    (some 3 : Option Nat) ≠ none := by
  refine ⟨by decide, by decide, by decide⟩

/-- A session selected as stale loses all four stored components. -/
lemma cleanup_removed_of_stale (m : WSManager) (maxAgeHours now : Nat)
    (rid : String)
    (hstale : staleSession m (maxAgeHours * 3600) now rid = true) :
    (cleanup_old_data m maxAgeHours now).connectionMetadata rid = none ∧
    (cleanup_old_data m maxAgeHours now).messageQueue rid = none ∧
    (cleanup_old_data m maxAgeHours now).lastAck rid = none ∧
    (cleanup_old_data m maxAgeHours now).messageCounters rid = none := by
  refine ⟨?_, ?_, ?_, ?_⟩ <;> simp [cleanup_old_data, hstale]

/-- Claim C8 (amended): `cleanup_old_data` with max_age 0, run after
disconnect with any positive elapsed time since the connect, removes the
metadata, delivery queue, acknowledgment high-water mark and sequence
counter of the session; a subsequent `acknowledge_message` for that id does
not raise and touches no other component, but instead of leaving the state
unchanged it re-creates the high-water-mark entry, set to the acknowledged
id. -/
theorem cleanup_removes_all_ack_recreates (m : WSManager) (rid : String)
    (md : ConnMetadata) (now : Nat)
    (hmd : m.connectionMetadata rid = some md)
    (hact : m.activeConnections rid = none)
    (hage : md.connectedAt < now) :
    (cleanup_old_data m 0 now).connectionMetadata rid = none ∧
    (cleanup_old_data m 0 now).messageQueue rid = none ∧
    (cleanup_old_data m 0 now).lastAck rid = none ∧
    (cleanup_old_data m 0 now).messageCounters rid = none ∧
    (∀ mid : Nat,
      (acknowledge_message (cleanup_old_data m 0 now) rid mid).lastAck rid =
        some mid ∧
      (acknowledge_message (cleanup_old_data m 0 now) rid
          mid).connectionMetadata =
        (cleanup_old_data m 0 now).connectionMetadata ∧
      (acknowledge_message (cleanup_old_data m 0 now) rid mid).messageQueue =
        (cleanup_old_data m 0 now).messageQueue ∧
      (acknowledge_message (cleanup_old_data m 0 now) rid
          mid).messageCounters =
        (cleanup_old_data m 0 now).messageCounters ∧
      (acknowledge_message (cleanup_old_data m 0 now) rid
          mid).activeConnections =
        (cleanup_old_data m 0 now).activeConnections) := by
  have hzero : staleSession m (0 * 3600) now rid = true := by
    simp [staleSession, hmd, hact]
    omega
  obtain ⟨hr1, hr2, hr3, hr4⟩ := cleanup_removed_of_stale m 0 now rid hzero
  refine ⟨hr1, hr2, hr3, hr4, ?_⟩
  intro mid
  refine ⟨?_, rfl, rfl, rfl, rfl⟩
  simp [acknowledge_message, mapSet, hr3]

/-- Witness for C8 (amended) at a concrete input: cleanup at time 10 wipes
session "r" of `exC8`, and a subsequent acknowledgment of id 3 re-creates
the high-water mark as 3. -/
theorem cleanup_removes_all_witness :
    exC8.connectionMetadata "r" =
      some { userId := "u", connectedAt := 0, lastHeartbeat := 0,
             reconnectionCount := 0 } ∧
    exC8.activeConnections "r" = none ∧ (0 : Nat) < 10 ∧
    (cleanup_old_data exC8 0 10).connectionMetadata "r" = none ∧
    (cleanup_old_data exC8 0 10).messageQueue "r" = none ∧
    (cleanup_old_data exC8 0 10).lastAck "r" = none ∧
    (cleanup_old_data exC8 0 10).messageCounters "r" = none ∧
    (acknowledge_message (cleanup_old_data exC8 0 10) "r" 3).lastAck "r" =
      some 3 := by
  obtain ⟨h1, h2, h3, h4, h5⟩ := cleanup_removes_all_ack_recreates exC8 "r"
    { userId := "u", connectedAt := 0, lastHeartbeat := 0,
      reconnectionCount := 0 }
    10 rfl rfl (by decide)
  exact ⟨rfl, rfl, by decide, h1, h2, h3, h4, (h5 3).1⟩

/-- Claim C9: a heartbeat frame is sent directly over the transport,
bypassing the sequenced send path: every frame it hands to the transport
has no message_id entry and type "heartbeat", the sequence counters, the
delivery queues and the ack marks of every session are untouched whatever
the send outcome, and on success the trace is exactly one heartbeat send
and only last_heartbeat in the metadata is refreshed. -/
theorem heartbeat_bypasses_sequencing (m : WSManager) (rid : String)
    (md : ConnMetadata) (ws now : Nat) (outcome : SendOutcome)
    (closeFails : Bool) (m2 : WSManager) (acts : List Action)
    (hmd : m.connectionMetadata rid = some md)
    (halive : now - md.lastHeartbeat ≤ 300)
    (hws : m.activeConnections rid = some ws)
    (h : heartbeat_step m rid now outcome closeFails =
      Except.ok (m2, acts)) :
    (∀ g ∈ framesOf acts, g.messageId = none ∧ g.typ = "heartbeat") ∧
    m2.messageCounters = m.messageCounters ∧
    m2.messageQueue = m.messageQueue ∧
    m2.lastAck = m.lastAck ∧
    (outcome = SendOutcome.ok →
      acts = [Action.send ws { typ := "heartbeat", timestamp := now }] ∧
      m2.connectionMetadata rid =
        some { md with lastHeartbeat := now }) := by
  rcases outcome with _ | _ | _
  · simp [heartbeat_step, hmd, hws, sendPrim, not_lt.mpr halive,
      Except.ok.injEq, Prod.mk.injEq] at h
    obtain ⟨hm2, hacts⟩ := h
    subst hm2
    subst hacts
    refine ⟨?_, rfl, rfl, rfl, fun _ => ⟨rfl, by simp [mapSet]⟩⟩
    intro g hg
    simp [framesOf] at hg
    subst hg
    exact ⟨rfl, rfl⟩
  all_goals
    cases closeFails <;>
      · simp [heartbeat_step, hmd, hws, sendPrim, disconnect, closePrim,
          not_lt.mpr halive, Except.ok.injEq, Prod.mk.injEq] at h
        obtain ⟨hm2, hacts⟩ := h
        subst hm2
        subst hacts
        refine ⟨?_, rfl, rfl, rfl, fun hco => by cases hco⟩
        intro g hg
        simp [framesOf] at hg
        subst hg
        exact ⟨rfl, rfl⟩

/-- Concrete state for C9: session "r" has a live transport (handle 4),
fresh metadata, counter 7, queued message and high-water mark 9. -/
def exC9 : WSManager :=
  { exC8 with
    activeConnections := fun k => if k = "r" then some 4 else none }

/-- Witness for C9 at a concrete input: a successful heartbeat for session
"r" of `exC9` at time 100 sends exactly one id-less heartbeat frame,
refreshes last_heartbeat, and leaves counters, queues and ack marks as they
were. -/
theorem heartbeat_bypasses_sequencing_witness :
    (resSt (heartbeat_step exC9 "r" 100 SendOutcome.ok
      false)).messageCounters = exC9.messageCounters ∧
    (resSt (heartbeat_step exC9 "r" 100 SendOutcome.ok
      false)).messageQueue = exC9.messageQueue ∧
    (resSt (heartbeat_step exC9 "r" 100 SendOutcome.ok
      false)).lastAck = exC9.lastAck ∧
    resActs (heartbeat_step exC9 "r" 100 SendOutcome.ok false) =
      [Action.send 4 { typ := "heartbeat", timestamp := 100 }] ∧
    (resSt (heartbeat_step exC9 "r" 100 SendOutcome.ok
      false)).connectionMetadata "r" =
      some { userId := "u", connectedAt := 0, lastHeartbeat := 100,
             reconnectionCount := 0 } := by
  have h : heartbeat_step exC9 "r" 100 SendOutcome.ok false =
      Except.ok
        (resSt (heartbeat_step exC9 "r" 100 SendOutcome.ok false),
         resActs (heartbeat_step exC9 "r" 100 SendOutcome.ok false)) := rfl
  obtain ⟨_h1, h2, h3, h4, h5⟩ := heartbeat_bypasses_sequencing exC9 "r"
    { userId := "u", connectedAt := 0, lastHeartbeat := 0,
      reconnectionCount := 0 }
    4 100 SendOutcome.ok false _ _ rfl (by decide) rfl h
  obtain ⟨h6, h7⟩ := h5 rfl
  exact ⟨h2, h3, h4, h6, h7⟩

/-- Claim C10: once cleanup has removed the counter of a session, the next
`send_message` for that session id assigns sequence number 1 again: the
counter entry is absent after cleanup, and the next send stores counter 1
and stamps the frame (queued, as the session has no live transport) with
message_id 1. -/
theorem cleanup_resets_sequence_to_one (m : WSManager) (rid : String)
    (md : ConnMetadata) (now : Nat) (message : Message)
    (outcome : SendOutcome) (closeFails : Bool)
    (m2 : WSManager) (delivered : Bool) (acts : List Action)
    (hmd : m.connectionMetadata rid = some md)
    (hact : m.activeConnections rid = none)
    (hage : md.connectedAt < now)
    (h : send_message (cleanup_old_data m 0 now) rid message outcome
        closeFails = Except.ok (m2, delivered, acts)) :
    (cleanup_old_data m 0 now).messageCounters rid = none ∧
    m2.messageCounters rid = some 1 ∧
    m2.messageQueue rid = some [{ message with messageId := some 1 }] := by
  have hzero : staleSession m (0 * 3600) now rid = true := by
    simp [staleSession, hmd, hact]
    omega
  have hcnt : (cleanup_old_data m 0 now).messageCounters rid = none :=
    (cleanup_removed_of_stale m 0 now rid hzero).2.2.2
  have hq : (cleanup_old_data m 0 now).messageQueue rid = none :=
    (cleanup_removed_of_stale m 0 now rid hzero).2.1
  have hac : (cleanup_old_data m 0 now).activeConnections rid = none := by
    simp [cleanup_old_data, hact]
  refine ⟨hcnt, ?_, ?_⟩ <;>
    · simp [send_message, hac, hcnt, hq, Except.ok.injEq, Prod.mk.injEq] at h
      obtain ⟨hm2, _, _⟩ := h
      subst hm2
      simp [queue_message, mapSet, hcnt, hq]

/-- Witness for C10 at a concrete input: session "r" of `exC8` had counter
9; after cleanup at time 10, the next send stores counter 1 and queues the
frame with message_id 1. -/
theorem cleanup_resets_sequence_witness :
    (cleanup_old_data exC8 0 10).messageCounters "r" = none ∧
    (sres (send_message (cleanup_old_data exC8 0 10) "r"
      { typ := "t", timestamp := 11 } SendOutcome.ok
      false)).messageCounters "r" = some 1 ∧
    (sres (send_message (cleanup_old_data exC8 0 10) "r"
      { typ := "t", timestamp := 11 } SendOutcome.ok
      false)).messageQueue "r" =
      some [{ typ := "t", timestamp := 11, messageId := some 1 }] := by
  have h : send_message (cleanup_old_data exC8 0 10) "r"
      { typ := "t", timestamp := 11 } SendOutcome.ok false =
      Except.ok
        (sres (send_message (cleanup_old_data exC8 0 10) "r"
          { typ := "t", timestamp := 11 } SendOutcome.ok false),
         sdelivered (send_message (cleanup_old_data exC8 0 10) "r"
          { typ := "t", timestamp := 11 } SendOutcome.ok false),
         sacts (send_message (cleanup_old_data exC8 0 10) "r"
          { typ := "t", timestamp := 11 } SendOutcome.ok false)) := rfl
  exact cleanup_resets_sequence_to_one exC8 "r"
    { userId := "u", connectedAt := 0, lastHeartbeat := 0,
      reconnectionCount := 0 }
    10 { typ := "t", timestamp := 11 } SendOutcome.ok false _ _ _
    rfl rfl (by decide) h

end AiCouncil
